import Mathlib

/-!
Shallow embedding of the inactivity state machine of
`src/core/screensaver_manager.py` (class `ScreensaverManager`), together
with the window-enumeration predicate used for video detection.

Python state is modelled as an explicit `Manager` record; Qt signal
emission and the display power-off command are recorded in a ghost
`emitted` event log; the single-shot `screensaver_off_timer` is an
optional absolute deadline (in seconds of the monotonic clock); the two
pynput listeners installed by `_setup_input_listeners` are booleans; the
exceptions raised by per-display `ScreensaverWindow` construction are
modelled by a `createFails` flag on each enumerated display.
-/

namespace Restmode

/-- The values of `ScreensaverManager.state`: the string constants
`'IDLE'`, `'WAITING'`, `'ACTIVE'`. -/
inductive SMState where
  | IDLE
  | WAITING
  | ACTIVE
deriving DecidableEq

/-- Observable effects: the three Qt signals of the manager plus the
`SendMessageW` display power-off command issued by `_turn_off_screen`. -/
inductive Event where
  | activated
  | deactivated
  | errorOccurred
  | powerOff
deriving DecidableEq

/-- A connected display as enumerated by `QApplication.screens()`.
`createFails` marks a display for which `ScreensaverWindow(screen, ...)`
raises an exception. -/
structure Screen where
  sid : Nat
  createFails : Bool
deriving DecidableEq

/-- A top-level OS window as inspected by `_is_video_playing`:
the owning process executable name (lower-cased), visibility, and the
`GetWindowRect` bounds. -/
structure TopWindow where
  exeName : String
  visible : Bool
  left : Int
  top : Int
  right : Int
  bottom : Int
deriving DecidableEq

/-- The configuration keys the manager reads through
`config_manager.get`: `activation.delay_minutes`,
`activation.check_interval_seconds`, `activation.enable_auto_activation`,
`system.turn_off_screen_delay_minutes`. -/
structure Config where
  delay_minutes : Nat
  check_interval_seconds : Nat
  enable_auto_activation : Bool
  turn_off_screen_delay_minutes : Nat
deriving DecidableEq

/-- The mutable state of a `ScreensaverManager` instance.
`emitted` is a ghost log of signals/commands, appended in program order.
`off_timer_deadline` is `some d` when `screensaver_off_timer` is armed
with absolute deadline `d` seconds. `config_connected` and
`off_timeout_connected` model the two signal connections that `cleanup`
disconnects. -/
structure Manager where
  state : SMState
  is_active : Bool
  screensaver_windows : List Nat
  last_input_time : Nat
  input_activity : Bool
  poll_timer_active : Bool
  off_timer_deadline : Option Nat
  mouse_listener_running : Bool
  keyboard_listener_running : Bool
  config_connected : Bool
  off_timeout_connected : Bool
  emitted : List Event
deriving DecidableEq

/-- `__init__`: state `'IDLE'`, `is_active = False`, empty window list,
`last_input_time = time.monotonic()` (here `t0`), listeners started by
`_setup_input_listeners` (flag cleared), both signals connected, and the
poll timer started iff `activation.enable_auto_activation`. -/
def init_manager (cfg : Config) (t0 : Nat) : Manager :=
  { state := SMState.IDLE
    is_active := false
    screensaver_windows := []
    last_input_time := t0
    input_activity := false
    poll_timer_active := cfg.enable_auto_activation
    off_timer_deadline := none
    mouse_listener_running := true
    keyboard_listener_running := true
    config_connected := true
    off_timeout_connected := true
    emitted := [] }

/-- A pynput listener callback (`on_mouse` / `on_keyboard` in
`_setup_input_listeners`): sets `_input_activity`. -/
def on_input (m : Manager) : Manager :=
  { m with input_activity := true }

/-- `_user_is_active`: reads `_input_activity`; when set, clears it and
returns `True`, otherwise returns `False` without modification. -/
def user_is_active (m : Manager) : Bool × Manager :=
  if m.input_activity then (true, { m with input_activity := false })
  else (false, m)

/-- `_set_state`: assigns the new state only when it differs
(the log-and-assign branch of the Python code). -/
def set_state (ns : SMState) (m : Manager) : Manager :=
  if m.state = ns then m else { m with state := ns }

/-- The `video_apps` allow-list of `_is_video_playing`. -/
def video_apps : List String :=
  ["vlc.exe", "potplayer.exe", "mpc-hc.exe", "mpc-be.exe", "wmplayer.exe",
   "chrome.exe", "msedge.exe", "firefox.exe", "opera.exe", "brave.exe",
   "iexplore.exe", "moviesandtv.exe", "netflix.exe", "disneyplus.exe"]

/-- `is_fullscreen` inside `_is_video_playing`: the window is visible and
its rectangle covers the screen up to a 10px width / 40px height
tolerance (`rect[2]-rect[0] >= sw-10 and rect[3]-rect[1] >= sh-40`). -/
def is_fullscreen (sw sh : Int) (w : TopWindow) : Bool :=
  w.visible && decide (sw - 10 ≤ w.right - w.left)
            && decide (sh - 40 ≤ w.bottom - w.top)

/-- `is_video_window`: the owning process name is in `video_apps` and the
window is fullscreen. -/
def is_video_window (sw sh : Int) (w : TopWindow) : Bool :=
  video_apps.contains w.exeName && is_fullscreen sw sh w

/-- `_is_video_playing`: true iff window enumeration finds a video
window (`sw`, `sh` are the `GetSystemMetrics` screen dimensions). -/
def is_video_playing (sw sh : Int) (wins : List TopWindow) : Bool :=
  wins.any (is_video_window sw sh)

/-- `start_monitoring`: `poll_timer.start(...)`. -/
def start_monitoring (m : Manager) : Manager :=
  { m with poll_timer_active := true }

/-- `stop_monitoring`: `poll_timer.stop()`. -/
def stop_monitoring (m : Manager) : Manager :=
  { m with poll_timer_active := false }

/-- The `for screen in screens` loop of `_activate_screensaver`: creates
one window per display in order; on the first display whose window
construction raises, the loop aborts (windows appended so far remain).
Returns the created window ids and whether an exception was raised. -/
def createWindows : List Screen → List Nat × Bool
  | [] => ([], false)
  | s :: rest =>
    if s.createFails then ([], true)
    else
      let r := createWindows rest
      (s.sid :: r.1, r.2)

/-- `_activate_screensaver`: returns immediately when `is_active`;
otherwise creates the per-display windows (the whole body is wrapped in
one `try`, so an exception aborts the loop and jumps to the `except`
branch which emits `error_occurred`); on success sets `is_active`,
emits `screensaver_activated`, stops the poll timer, and arms
`screensaver_off_timer` when `system.turn_off_screen_delay_minutes > 0`. -/
def activate_screensaver (cfg : Config) (now : Nat) (screens : List Screen)
    (m : Manager) : Manager :=
  if m.is_active then m
  else
    let cw := createWindows screens
    let m1 := { m with screensaver_windows := m.screensaver_windows ++ cw.1 }
    if cw.2 then
      { m1 with emitted := m1.emitted ++ [Event.errorOccurred] }
    else
      let m2 := { m1 with is_active := true
                          emitted := m1.emitted ++ [Event.activated]
                          poll_timer_active := false }
      if 0 < cfg.turn_off_screen_delay_minutes then
        { m2 with off_timer_deadline :=
                    some (now + cfg.turn_off_screen_delay_minutes * 60) }
      else m2

/-- `deactivate_screensaver`: returns immediately when not `is_active`;
otherwise stops `screensaver_off_timer` if armed, closes and clears all
windows, clears `is_active`, emits `screensaver_deactivated`, and
restarts the poll timer when auto-activation is enabled. -/
def deactivate_screensaver (cfg : Config) (m : Manager) : Manager :=
  if !m.is_active then m
  else
    let m1 := if m.off_timer_deadline.isSome
              then { m with off_timer_deadline := none } else m
    let m2 := { m1 with screensaver_windows := []
                        is_active := false
                        emitted := m1.emitted ++ [Event.deactivated] }
    if cfg.enable_auto_activation then start_monitoring m2 else m2

/-- `_turn_off_screen`: issues the display power-off broadcast. -/
def turn_off_screen (m : Manager) : Manager :=
  { m with emitted := m.emitted ++ [Event.powerOff] }

/-- Expiry of the single-shot `screensaver_off_timer` at time `now`:
when armed with a deadline that has passed, the timer deactivates itself
and invokes `_turn_off_screen`; otherwise nothing happens. -/
def fire_off_timer (now : Nat) (m : Manager) : Manager :=
  match m.off_timer_deadline with
  | some d =>
      if d ≤ now then turn_off_screen { m with off_timer_deadline := none }
      else m
  | none => m

/-- `_poll_inactivity`, one poll cycle at monotonic time `now`, with the
current screen metrics `sw`, `sh`, enumerated top-level windows `wins`
and connected displays `screens`. -/
def poll_inactivity (cfg : Config) (now : Nat) (sw sh : Int)
    (wins : List TopWindow) (screens : List Screen) (m : Manager) : Manager :=
  let delay_seconds := cfg.delay_minutes * 60
  let ua := user_is_active m
  if ua.1 then
    set_state SMState.IDLE { ua.2 with last_input_time := now }
  else if is_video_playing sw sh wins then
    set_state SMState.WAITING ua.2
  else if delay_seconds ≤ now - ua.2.last_input_time then
    if ua.2.state ≠ SMState.ACTIVE then
      set_state SMState.ACTIVE (activate_screensaver cfg now screens ua.2)
    else ua.2
  else
    set_state SMState.WAITING ua.2

/-- `toggle_screensaver` (the `ctrl+alt+s` hotkey): deactivate when a
session is active, else activate. -/
def toggle_screensaver (cfg : Config) (now : Nat) (screens : List Screen)
    (m : Manager) : Manager :=
  if m.is_active then deactivate_screensaver cfg m
  else activate_screensaver cfg now screens m

/-- `cleanup`: `stop_monitoring()`, then `deactivate_screensaver()`, then
disconnects the `config_updated` and `screensaver_off_timer.timeout`
signals. It does not touch `_mouse_listener` / `_keyboard_listener`. -/
def cleanup (cfg : Config) (m : Manager) : Manager :=
  let m1 := stop_monitoring m
  let m2 := deactivate_screensaver cfg m1
  { m2 with config_connected := false
            off_timeout_connected := false }

/-- States of a `ScreensaverManager` reachable, for a fixed configuration
and display list, from construction by any interleaving of poll cycles
(with arbitrary clock readings and window enumerations), the manual
toggle hotkey, deactivation requests (emergency hotkey, overlay input,
external), input-listener callbacks, and screen-off timer expiry. -/
inductive Reach (cfg : Config) (screens : List Screen) : Manager → Prop where
  | init (t0 : Nat) : Reach cfg screens (init_manager cfg t0)
  | poll (now : Nat) (sw sh : Int) (wins : List TopWindow) (m : Manager) :
      Reach cfg screens m →
      Reach cfg screens (poll_inactivity cfg now sw sh wins screens m)
  | toggle (now : Nat) (m : Manager) :
      Reach cfg screens m →
      Reach cfg screens (toggle_screensaver cfg now screens m)
  | deact (m : Manager) :
      Reach cfg screens m →
      Reach cfg screens (deactivate_screensaver cfg m)
  | input (m : Manager) :
      Reach cfg screens m → Reach cfg screens (on_input m)
  | fire (now : Nat) (m : Manager) :
      Reach cfg screens m → Reach cfg screens (fire_off_timer now m)

/-- The default configuration: `delay_minutes = 5`,
`check_interval_seconds = 30`, auto-activation on, screen-off disabled. -/
def cfg_default : Config := ⟨5, 30, true, 0⟩

/-- A single display whose window creation succeeds. -/
def screens_one : List Screen := [⟨0, false⟩]

/-- The run of §8's scenario: from construction at time 0, poll cycle `k`
happens at `now = 30 * k` with no input activity, no top-level windows
(hence no video), one healthy display. -/
def run_cycles : Nat → Manager
  | 0 => init_manager cfg_default 0
  | n + 1 => poll_inactivity cfg_default (30 * (n + 1)) 1920 1080 [] screens_one
      (run_cycles n)

/-- A fullscreen, visible VLC window on a 1920x1080 screen. -/
def vlc_fullscreen : TopWindow := ⟨"vlc.exe", true, 0, 0, 1920, 1080⟩

/-- When all window creations succeed, the activation loop creates one
window per display, in display order, and raises no exception. -/
theorem createWindows_ok (screens : List Screen)
    (h : ∀ s ∈ screens, s.createFails = false) :
    createWindows screens = (screens.map Screen.sid, false) := by
  induction screens with
  | nil => rfl
  | cons s rest ih =>
    have hs : s.createFails = false := h s (by simp)
    have hr := ih (fun x hx => h x (by simp [hx]))
    simp [createWindows, hs, hr]

@[simp] theorem set_state_is_active (ns : SMState) (m : Manager) :
    (set_state ns m).is_active = m.is_active := by
  unfold set_state; split_ifs <;> rfl

@[simp] theorem set_state_windows (ns : SMState) (m : Manager) :
    (set_state ns m).screensaver_windows = m.screensaver_windows := by
  unfold set_state; split_ifs <;> rfl

@[simp] theorem set_state_off (ns : SMState) (m : Manager) :
    (set_state ns m).off_timer_deadline = m.off_timer_deadline := by
  unfold set_state; split_ifs <;> rfl

@[simp] theorem on_input_is_active (m : Manager) :
    (on_input m).is_active = m.is_active := rfl

@[simp] theorem on_input_windows (m : Manager) :
    (on_input m).screensaver_windows = m.screensaver_windows := rfl

@[simp] theorem on_input_off (m : Manager) :
    (on_input m).off_timer_deadline = m.off_timer_deadline := rfl

@[simp] theorem fire_is_active (t : Nat) (m : Manager) :
    (fire_off_timer t m).is_active = m.is_active := by
  unfold fire_off_timer turn_off_screen
  split <;> try rfl
  split_ifs <;> rfl

@[simp] theorem fire_windows (t : Nat) (m : Manager) :
    (fire_off_timer t m).screensaver_windows = m.screensaver_windows := by
  unfold fire_off_timer turn_off_screen
  split <;> try rfl
  split_ifs <;> rfl

/-- Helper: a fired or idle screen-off timer never re-arms itself. -/
theorem fire_off_inv (t : Nat) (m : Manager)
    (h : m.off_timer_deadline = none) : fire_off_timer t m = m := by
  unfold fire_off_timer
  rw [h]

/-- Helper: deactivation with no active session is the identity. -/
theorem deactivate_eq_of_not_active (cfg : Config) (m : Manager)
    (h : m.is_active = false) : deactivate_screensaver cfg m = m := by
  simp [deactivate_screensaver, h]

/-- C1: a poll cycle that consumes the activity flag resets
`last_input_time` to `now`, moves the state to `IDLE`, clears the flag,
and changes nothing else (it returns before the video / elapsed-time
checks); hence the state entering the next cycle is `IDLE`. -/
theorem poll_activity_resets_to_idle (cfg : Config) (now : Nat) (sw sh : Int)
    (wins : List TopWindow) (screens : List Screen) (m : Manager)
    (h : m.input_activity = true) :
    poll_inactivity cfg now sw sh wins screens m =
      { m with input_activity := false
               last_input_time := now
               state := SMState.IDLE } ∧
    (poll_inactivity cfg now sw sh wins screens m).state = SMState.IDLE := by
  cases m with
  | mk st ia wins2 lit act pt off ml kl cc oc em =>
    cases h
    constructor
    · simp only [poll_inactivity, user_is_active, set_state]
      split_ifs <;> simp_all
    · simp only [poll_inactivity, user_is_active, set_state]
      split_ifs <;> simp_all

/-- Witness for C1: a concrete manager that has just seen input. -/
theorem poll_activity_resets_to_idle_check :
    poll_inactivity cfg_default 42 1920 1080 [] screens_one
        (on_input (init_manager cfg_default 0)) =
      { on_input (init_manager cfg_default 0) with
          input_activity := false
          last_input_time := 42
          state := SMState.IDLE } ∧
    (poll_inactivity cfg_default 42 1920 1080 [] screens_one
        (on_input (init_manager cfg_default 0))).state = SMState.IDLE :=
  poll_activity_resets_to_idle cfg_default 42 1920 1080 [] screens_one
    (on_input (init_manager cfg_default 0)) rfl

/-- C2: a poll cycle that consumes no activity while
`_is_video_playing` reports true sets the state to `WAITING` (so never
`ACTIVE`), leaves `last_input_time` untouched, and changes nothing
else — even when the elapsed time exceeds the delay. -/
theorem poll_video_suppresses_activation (cfg : Config) (now : Nat)
    (sw sh : Int) (wins : List TopWindow) (screens : List Screen)
    (m : Manager) (hact : m.input_activity = false)
    (hvid : is_video_playing sw sh wins = true) :
    poll_inactivity cfg now sw sh wins screens m =
      { m with state := SMState.WAITING } ∧
    (poll_inactivity cfg now sw sh wins screens m).state ≠ SMState.ACTIVE ∧
    (poll_inactivity cfg now sw sh wins screens m).last_input_time =
      m.last_input_time ∧
    (poll_inactivity cfg now sw sh wins screens m).is_active = m.is_active := by
  have he : poll_inactivity cfg now sw sh wins screens m =
      { m with state := SMState.WAITING } := by
    cases m with
    | mk st ia wins2 lit act pt off ml kl cc oc em =>
      cases hact
      simp only [poll_inactivity, user_is_active, set_state]
      split_ifs <;> simp_all
  refine ⟨he, ?_, ?_, ?_⟩ <;> simp [he]

/-- Witness for C2: one fullscreen VLC window, 400s elapsed against the
default 300s delay, yet the state after the poll is `WAITING`. -/
theorem poll_video_suppresses_activation_check :
    poll_inactivity cfg_default 400 1920 1080 [vlc_fullscreen] screens_one
        (init_manager cfg_default 0) =
      { init_manager cfg_default 0 with state := SMState.WAITING } ∧
    (poll_inactivity cfg_default 400 1920 1080 [vlc_fullscreen] screens_one
        (init_manager cfg_default 0)).state ≠ SMState.ACTIVE ∧
    (poll_inactivity cfg_default 400 1920 1080 [vlc_fullscreen] screens_one
        (init_manager cfg_default 0)).last_input_time =
      (init_manager cfg_default 0).last_input_time ∧
    (poll_inactivity cfg_default 400 1920 1080 [vlc_fullscreen] screens_one
        (init_manager cfg_default 0)).is_active =
      (init_manager cfg_default 0).is_active :=
  poll_video_suppresses_activation cfg_default 400 1920 1080 [vlc_fullscreen]
    screens_one (init_manager cfg_default 0) rfl (by decide)

/-- C5: with `delay_minutes = 5`, a 30-second poll interval, no input and
no windows (hence no video), cycles 1 through 9 each end in `WAITING`
and cycle 10 (elapsed 300s ≥ 300s) performs activation — one window on
the single display, `is_active` set, `screensaver_activated` emitted —
and ends in `ACTIVE`. -/
theorem idle_to_waiting_to_active_at_cycle_ten :
    (run_cycles 0).state = SMState.IDLE ∧
    (run_cycles 1).state = SMState.WAITING ∧
    (run_cycles 2).state = SMState.WAITING ∧
    (run_cycles 3).state = SMState.WAITING ∧
    (run_cycles 4).state = SMState.WAITING ∧
    (run_cycles 5).state = SMState.WAITING ∧
    (run_cycles 6).state = SMState.WAITING ∧
    (run_cycles 7).state = SMState.WAITING ∧
    (run_cycles 8).state = SMState.WAITING ∧
    (run_cycles 9).state = SMState.WAITING ∧
    (run_cycles 9).is_active = false ∧
    (run_cycles 10).state = SMState.ACTIVE ∧
    (run_cycles 10).is_active = true ∧
    (run_cycles 10).screensaver_windows = [0] ∧
    (run_cycles 10).emitted = [Event.activated] := by decide

/-- C7: deactivation with no active session returns before any teardown:
the manager is unchanged — no window close, no timer change, no signal. -/
theorem deactivate_noop_when_inactive (cfg : Config) (m : Manager)
    (h : m.is_active = false) :
    deactivate_screensaver cfg m = m := by
  simp [deactivate_screensaver, h]

/-- Witness for C7: deactivating a freshly constructed manager. -/
theorem deactivate_noop_when_inactive_check :
    deactivate_screensaver cfg_default (init_manager cfg_default 0) =
      init_manager cfg_default 0 :=
  deactivate_noop_when_inactive cfg_default (init_manager cfg_default 0) rfl

/-- C10: deactivation only touches the session fields, the screen-off
timer, the poll timer (and the signal log); the state-machine `state`
field, `last_input_time`, the activity flag, the listeners and the
signal connections all keep their pre-deactivation values. -/
theorem deactivate_frame (cfg : Config) (m : Manager) :
    (deactivate_screensaver cfg m).state = m.state ∧
    (deactivate_screensaver cfg m).last_input_time = m.last_input_time ∧
    (deactivate_screensaver cfg m).input_activity = m.input_activity ∧
    (deactivate_screensaver cfg m).mouse_listener_running =
      m.mouse_listener_running ∧
    (deactivate_screensaver cfg m).keyboard_listener_running =
      m.keyboard_listener_running ∧
    (deactivate_screensaver cfg m).config_connected = m.config_connected ∧
    (deactivate_screensaver cfg m).off_timeout_connected =
      m.off_timeout_connected := by
  simp only [deactivate_screensaver, start_monitoring]
  split_ifs <;> simp_all

/-- C6: from a session-free manager, activation with all-healthy displays
creates exactly one window per connected display (in display order) and
marks the session active; a second activation call is then a complete
no-op — the manager, its windows, timers and signal log are returned
unchanged. -/
theorem activate_idempotent (cfg : Config) (now1 now2 : Nat)
    (screens : List Screen) (m : Manager)
    (hok : ∀ s ∈ screens, s.createFails = false)
    (h0 : m.is_active = false) (hw : m.screensaver_windows = []) :
    (activate_screensaver cfg now1 screens m).screensaver_windows =
      screens.map Screen.sid ∧
    (activate_screensaver cfg now1 screens m).is_active = true ∧
    activate_screensaver cfg now2 screens
        (activate_screensaver cfg now1 screens m) =
      activate_screensaver cfg now1 screens m := by
  have hcw := createWindows_ok screens hok
  unfold activate_screensaver
  simp only [h0, hcw, hw, Bool.false_eq_true, if_false]
  split_ifs <;> simp_all [activate_screensaver]

/-- Witness for C6: two healthy displays, two successive activations. -/
theorem activate_idempotent_check :
    (activate_screensaver cfg_default 0 [⟨0, false⟩, ⟨1, false⟩]
        (init_manager cfg_default 0)).screensaver_windows =
      ([⟨0, false⟩, ⟨1, false⟩] : List Screen).map Screen.sid ∧
    (activate_screensaver cfg_default 0 [⟨0, false⟩, ⟨1, false⟩]
        (init_manager cfg_default 0)).is_active = true ∧
    activate_screensaver cfg_default 7 [⟨0, false⟩, ⟨1, false⟩]
        (activate_screensaver cfg_default 0 [⟨0, false⟩, ⟨1, false⟩]
          (init_manager cfg_default 0)) =
      activate_screensaver cfg_default 0 [⟨0, false⟩, ⟨1, false⟩]
        (init_manager cfg_default 0) :=
  activate_idempotent cfg_default 0 7 [⟨0, false⟩, ⟨1, false⟩]
    (init_manager cfg_default 0) (by decide) rfl rfl

/-- C9 counterexample: cleanup of a freshly constructed manager leaves
both pynput listeners installed (no code path stops them), and cleanup
of a manager with an active session (reached by the toggle hotkey)
leaves the poll timer running, because `deactivate_screensaver`
restarts monitoring after `cleanup` already stopped it. -/
theorem cleanup_leaves_hooks_installed :
    (cleanup cfg_default (init_manager cfg_default 0)).mouse_listener_running
      = true ∧
    (cleanup cfg_default
        (init_manager cfg_default 0)).keyboard_listener_running = true ∧
    (cleanup cfg_default (toggle_screensaver cfg_default 0 screens_one
        (init_manager cfg_default 0))).poll_timer_active = true := by
  decide

/-- C9 amended: cleanup tears down any active session, disarms the
screen-off timer when a session was active, disconnects both signals,
and is safe on a manager whose resources never started — but it leaves
the mouse and keyboard listeners exactly as they were, and the poll
timer ends up running again whenever an active session was torn down
with auto-activation enabled. -/
theorem cleanup_behavior (cfg : Config) (m : Manager) :
    (cleanup cfg m).is_active = false ∧
    (cleanup cfg m).screensaver_windows =
      (if m.is_active then [] else m.screensaver_windows) ∧
    (cleanup cfg m).off_timer_deadline =
      (if m.is_active then none else m.off_timer_deadline) ∧
    (cleanup cfg m).poll_timer_active =
      (m.is_active && cfg.enable_auto_activation) ∧
    (cleanup cfg m).mouse_listener_running = m.mouse_listener_running ∧
    (cleanup cfg m).keyboard_listener_running = m.keyboard_listener_running ∧
    (cleanup cfg m).config_connected = false ∧
    (cleanup cfg m).off_timeout_connected = false := by
  cases m with
  | mk st ia wins lit act pt off ml kl cc oc em =>
    cases ia <;> cases off <;>
      simp [cleanup, deactivate_screensaver, stop_monitoring,
        start_monitoring] <;>
      split_ifs <;> simp_all

/-- When the first `createFails` display is reached, the activation loop
raises there: windows for the preceding displays were already appended,
the remaining displays are never visited. -/
theorem createWindows_fail (pre : List Screen) (s : Screen)
    (post : List Screen) (hpre : ∀ x ∈ pre, x.createFails = false)
    (hs : s.createFails = true) :
    createWindows (pre ++ s :: post) = (pre.map Screen.sid, true) := by
  induction pre with
  | nil => simp [createWindows, hs]
  | cons a rest ih =>
    have ha : a.createFails = false := hpre a (by simp)
    have hr := ih (fun x hx => hpre x (by simp [hx]))
    simp [createWindows, ha, hr]

/-- C4 counterexample: three displays, the second failing. The poll that
triggers activation leaves only the first display's window (the third
healthy display receives none), the session is not considered active
even though one surface exists, and the state becomes `ACTIVE`, not
`WAITING`. -/
theorem surface_failure_counterexample :
    (poll_inactivity cfg_default 300 1920 1080 []
        [⟨0, false⟩, ⟨1, true⟩, ⟨2, false⟩]
        (init_manager cfg_default 0)).screensaver_windows = [0] ∧
    (poll_inactivity cfg_default 300 1920 1080 []
        [⟨0, false⟩, ⟨1, true⟩, ⟨2, false⟩]
        (init_manager cfg_default 0)).is_active = false ∧
    (poll_inactivity cfg_default 300 1920 1080 []
        [⟨0, false⟩, ⟨1, true⟩, ⟨2, false⟩]
        (init_manager cfg_default 0)).state = SMState.ACTIVE ∧
    (poll_inactivity cfg_default 300 1920 1080 []
        [⟨0, false⟩, ⟨1, true⟩, ⟨2, false⟩]
        (init_manager cfg_default 0)).emitted = [Event.errorOccurred] := by
  decide

/-- C4 amended: when the surface for one display fails during an
activating poll, the `try` block aborts: earlier displays' surfaces stay
in the session list, later displays get no surface, an error signal is
emitted, `is_active` stays false, the poll timer is not stopped and the
screen-off timer is not armed — yet the poll still sets the state to
`ACTIVE` instead of reverting to `WAITING`. -/
theorem activation_aborts_on_surface_failure (cfg : Config) (now : Nat)
    (sw sh : Int) (wins : List TopWindow) (pre : List Screen) (s : Screen)
    (post : List Screen) (m : Manager)
    (hpre : ∀ x ∈ pre, x.createFails = false) (hs : s.createFails = true)
    (hact : m.input_activity = false)
    (hvid : is_video_playing sw sh wins = false)
    (h0 : m.is_active = false)
    (hdelay : cfg.delay_minutes * 60 ≤ now - m.last_input_time)
    (hstate : m.state ≠ SMState.ACTIVE) :
    (poll_inactivity cfg now sw sh wins (pre ++ s :: post)
        m).screensaver_windows =
      m.screensaver_windows ++ pre.map Screen.sid ∧
    (poll_inactivity cfg now sw sh wins (pre ++ s :: post) m).is_active
      = false ∧
    (poll_inactivity cfg now sw sh wins (pre ++ s :: post) m).state
      = SMState.ACTIVE ∧
    (poll_inactivity cfg now sw sh wins (pre ++ s :: post) m).emitted
      = m.emitted ++ [Event.errorOccurred] ∧
    (poll_inactivity cfg now sw sh wins (pre ++ s :: post)
        m).off_timer_deadline = m.off_timer_deadline ∧
    (poll_inactivity cfg now sw sh wins (pre ++ s :: post)
        m).poll_timer_active = m.poll_timer_active := by
  have hcw := createWindows_fail pre s post hpre hs
  have hua : user_is_active m = (false, m) := by
    unfold user_is_active
    rw [hact]
    simp
  have hkey : activate_screensaver cfg now (pre ++ s :: post) m =
      { m with
          screensaver_windows :=
            m.screensaver_windows ++ pre.map Screen.sid
          emitted := m.emitted ++ [Event.errorOccurred] } := by
    unfold activate_screensaver
    rw [hcw]
    simp [h0]
  have hpoll : poll_inactivity cfg now sw sh wins (pre ++ s :: post) m =
      set_state SMState.ACTIVE
        (activate_screensaver cfg now (pre ++ s :: post) m) := by
    unfold poll_inactivity
    rw [hua]
    simp [hvid, hdelay, hstate]
  rw [hpoll, hkey]
  unfold set_state
  split_ifs with h
  · exact absurd h hstate
  · simp [h0]

/-- Witness for C4's amended claim at a concrete failing input. -/
theorem activation_aborts_on_surface_failure_check :
    (poll_inactivity cfg_default 777 1920 1080 []
        ([⟨0, false⟩] ++ ⟨1, true⟩ :: [⟨2, false⟩])
        (init_manager cfg_default 0)).screensaver_windows =
      (init_manager cfg_default 0).screensaver_windows ++
        ([⟨0, false⟩] : List Screen).map Screen.sid ∧
    (poll_inactivity cfg_default 777 1920 1080 []
        ([⟨0, false⟩] ++ ⟨1, true⟩ :: [⟨2, false⟩])
        (init_manager cfg_default 0)).is_active = false ∧
    (poll_inactivity cfg_default 777 1920 1080 []
        ([⟨0, false⟩] ++ ⟨1, true⟩ :: [⟨2, false⟩])
        (init_manager cfg_default 0)).state = SMState.ACTIVE ∧
    (poll_inactivity cfg_default 777 1920 1080 []
        ([⟨0, false⟩] ++ ⟨1, true⟩ :: [⟨2, false⟩])
        (init_manager cfg_default 0)).emitted =
      (init_manager cfg_default 0).emitted ++ [Event.errorOccurred] ∧
    (poll_inactivity cfg_default 777 1920 1080 []
        ([⟨0, false⟩] ++ ⟨1, true⟩ :: [⟨2, false⟩])
        (init_manager cfg_default 0)).off_timer_deadline =
      (init_manager cfg_default 0).off_timer_deadline ∧
    (poll_inactivity cfg_default 777 1920 1080 []
        ([⟨0, false⟩] ++ ⟨1, true⟩ :: [⟨2, false⟩])
        (init_manager cfg_default 0)).poll_timer_active =
      (init_manager cfg_default 0).poll_timer_active :=
  activation_aborts_on_surface_failure cfg_default 777 1920 1080 []
    [⟨0, false⟩] ⟨1, true⟩ [⟨2, false⟩] (init_manager cfg_default 0)
    (by decide) rfl rfl rfl rfl (by decide) (by decide)

@[simp] theorem ua_snd_is_active (m : Manager) :
    (user_is_active m).2.is_active = m.is_active := by
  unfold user_is_active; split_ifs <;> rfl

@[simp] theorem ua_snd_windows (m : Manager) :
    (user_is_active m).2.screensaver_windows = m.screensaver_windows := by
  unfold user_is_active; split_ifs <;> rfl

@[simp] theorem ua_snd_off (m : Manager) :
    (user_is_active m).2.off_timer_deadline = m.off_timer_deadline := by
  unfold user_is_active; split_ifs <;> rfl

/-- Helper: activation on an already active session returns unchanged. -/
theorem activate_noop_of_active (cfg : Config) (now : Nat)
    (screens : List Screen) (m : Manager) (hA : m.is_active = true) :
    activate_screensaver cfg now screens m = m := by
  simp [activate_screensaver, hA]

/-- Helper: deactivation of an active session clears the session flag and
the window list and disarms the screen-off timer. -/
theorem deactivate_teardown (cfg : Config) (m : Manager)
    (hA : m.is_active = true) :
    (deactivate_screensaver cfg m).is_active = false ∧
    (deactivate_screensaver cfg m).screensaver_windows = [] ∧
    (deactivate_screensaver cfg m).off_timer_deadline = none := by
  cases hO : m.off_timer_deadline <;>
    simp [deactivate_screensaver, hA, hO, start_monitoring] <;>
    split_ifs <;> simp

/-- Invariant step: activation cannot leave an armed screen-off timer on
an inactive manager. -/
theorem activate_off_inv (cfg : Config) (now : Nat) (screens : List Screen)
    (m : Manager)
    (ih : m.is_active = false → m.off_timer_deadline = none) :
    (activate_screensaver cfg now screens m).is_active = false →
    (activate_screensaver cfg now screens m).off_timer_deadline = none := by
  simp only [activate_screensaver]
  split_ifs <;> simp_all

/-- Invariant step for deactivation. -/
theorem deactivate_off_inv (cfg : Config) (m : Manager)
    (ih : m.is_active = false → m.off_timer_deadline = none) :
    (deactivate_screensaver cfg m).is_active = false →
    (deactivate_screensaver cfg m).off_timer_deadline = none := by
  cases hA : m.is_active
  · rw [deactivate_eq_of_not_active cfg m hA]; exact ih
  · intro _; exact (deactivate_teardown cfg m hA).2.2

/-- Helper: consuming the activity flag when no input occurred. -/
theorem ua_false (m : Manager) (h : m.input_activity = false) :
    user_is_active m = (false, m) := by
  unfold user_is_active; rw [h]; simp

/-- Helper: consuming the activity flag when input occurred. -/
theorem ua_true (m : Manager) (h : m.input_activity = true) :
    user_is_active m = (true, { m with input_activity := false }) := by
  unfold user_is_active; rw [h]; simp

/-- Invariant step for a poll cycle. -/
theorem poll_off_inv (cfg : Config) (now : Nat) (sw sh : Int)
    (wins : List TopWindow) (screens : List Screen) (m : Manager)
    (ih : m.is_active = false → m.off_timer_deadline = none) :
    (poll_inactivity cfg now sw sh wins screens m).is_active = false →
    (poll_inactivity cfg now sw sh wins screens m).off_timer_deadline
      = none := by
  have hx := activate_off_inv cfg now screens m ih
  cases hA : m.input_activity with
  | true =>
    unfold poll_inactivity
    rw [ua_true m hA]
    split_ifs <;> simp_all
  | false =>
    unfold poll_inactivity
    rw [ua_false m hA]
    split_ifs <;> simp_all
    all_goals (split_ifs <;> simp_all)

/-- Invariant step for the toggle hotkey. -/
theorem toggle_off_inv (cfg : Config) (now : Nat) (screens : List Screen)
    (m : Manager)
    (ih : m.is_active = false → m.off_timer_deadline = none) :
    (toggle_screensaver cfg now screens m).is_active = false →
    (toggle_screensaver cfg now screens m).off_timer_deadline = none := by
  unfold toggle_screensaver
  split_ifs with hA
  · intro _; exact (deactivate_teardown cfg m hA).2.2
  · exact activate_off_inv cfg now screens m ih

/-- Invariant step for timer expiry. -/
theorem fire_preserves_off_inv (t : Nat) (m : Manager)
    (ih : m.is_active = false → m.off_timer_deadline = none) :
    (fire_off_timer t m).is_active = false →
    (fire_off_timer t m).off_timer_deadline = none := by
  cases hO : m.off_timer_deadline with
  | none => rw [fire_off_inv t m hO]; exact ih
  | some d =>
    simp only [fire_off_timer, hO, turn_off_screen]
    split_ifs <;> simp_all

/-- In every reachable manager state, the screen-off timer is armed only
while a session is active. -/
theorem reach_off_none_of_inactive (cfg : Config) (screens : List Screen)
    (m : Manager) (hr : Reach cfg screens m) :
    m.is_active = false → m.off_timer_deadline = none := by
  induction hr with
  | init t0 => intro _; rfl
  | poll now sw sh wins m hm ih =>
      exact poll_off_inv cfg now sw sh wins screens m ih
  | toggle now m hm ih => exact toggle_off_inv cfg now screens m ih
  | deact m hm ih => exact deactivate_off_inv cfg m ih
  | input m hm ih => simpa using ih
  | fire now m hm ih => exact fire_preserves_off_inv now m ih

/-- C8: after deactivating any reachable manager — the funnel every
session-ending path goes through (overlay input, emergency hotkey,
toggle, cleanup) — the screen-off timer is disarmed, so a later expiry
tick at any time `t` is a no-op: the power-off command is never issued
after the session has ended. -/
theorem power_timer_disarmed_on_session_end (cfg : Config)
    (screens : List Screen) (m : Manager) (t : Nat)
    (hr : Reach cfg screens m) :
    (deactivate_screensaver cfg m).off_timer_deadline = none ∧
    fire_off_timer t (deactivate_screensaver cfg m) =
      deactivate_screensaver cfg m := by
  have hnone : (deactivate_screensaver cfg m).off_timer_deadline = none := by
    cases hA : m.is_active
    · rw [deactivate_eq_of_not_active cfg m hA]
      exact reach_off_none_of_inactive cfg screens m hr hA
    · exact (deactivate_teardown cfg m hA).2.2
  exact ⟨hnone, fire_off_inv t _ hnone⟩

/-- The configuration of §8's screen-off scenario:
`screenOffDelay = 1 minute`. -/
def cfg_off : Config := ⟨5, 30, true, 1⟩

/-- Witness for C8: activation at time 0 arms the timer for t = 60;
after deactivation the deadline is cleared and the expiry tick at t = 60
does nothing. -/
theorem power_timer_disarmed_on_session_end_check :
    (toggle_screensaver cfg_off 0 screens_one
        (init_manager cfg_off 0)).off_timer_deadline = some 60 ∧
    ((deactivate_screensaver cfg_off (toggle_screensaver cfg_off 0 screens_one
        (init_manager cfg_off 0))).off_timer_deadline = none ∧
      fire_off_timer 60 (deactivate_screensaver cfg_off
          (toggle_screensaver cfg_off 0 screens_one
            (init_manager cfg_off 0))) =
        deactivate_screensaver cfg_off (toggle_screensaver cfg_off 0
          screens_one (init_manager cfg_off 0))) :=
  ⟨by decide, power_timer_disarmed_on_session_end cfg_off screens_one _ 60
      (Reach.toggle 0 _ (Reach.init 0))⟩

/-- Session-invariant step: activation with healthy, non-empty displays
keeps `is_active` equivalent to the window list being non-empty. -/
theorem activate_session_inv (cfg : Config) (now : Nat)
    (screens : List Screen) (m : Manager) (hne : screens ≠ [])
    (hok : ∀ s ∈ screens, s.createFails = false)
    (ih : m.is_active = true ↔ m.screensaver_windows ≠ []) :
    (activate_screensaver cfg now screens m).is_active = true ↔
      (activate_screensaver cfg now screens m).screensaver_windows ≠ [] := by
  cases hA : m.is_active
  · have hw : m.screensaver_windows = [] := by
      by_contra hx
      exact absurd (ih.mpr hx) (by simp [hA])
    have hcw := createWindows_ok screens hok
    simp only [activate_screensaver, hA, hcw]
    split_ifs <;> simp_all
  · rw [activate_noop_of_active cfg now screens m hA]
    exact ih

/-- Session-invariant step for deactivation. -/
theorem deactivate_session_inv (cfg : Config) (m : Manager)
    (ih : m.is_active = true ↔ m.screensaver_windows ≠ []) :
    (deactivate_screensaver cfg m).is_active = true ↔
      (deactivate_screensaver cfg m).screensaver_windows ≠ [] := by
  cases hA : m.is_active
  · rw [deactivate_eq_of_not_active cfg m hA]; exact ih
  · have h := deactivate_teardown cfg m hA
    simp [h.1, h.2.1]

/-- Session-invariant step for a poll cycle. -/
theorem poll_session_inv (cfg : Config) (now : Nat) (sw sh : Int)
    (wins : List TopWindow) (screens : List Screen) (m : Manager)
    (hne : screens ≠ [])
    (hok : ∀ s ∈ screens, s.createFails = false)
    (ih : m.is_active = true ↔ m.screensaver_windows ≠ []) :
    (poll_inactivity cfg now sw sh wins screens m).is_active = true ↔
      (poll_inactivity cfg now sw sh wins screens
        m).screensaver_windows ≠ [] := by
  have hx := activate_session_inv cfg now screens m hne hok ih
  cases hA : m.input_activity with
  | true =>
    unfold poll_inactivity
    rw [ua_true m hA]
    split_ifs <;> simp_all
  | false =>
    unfold poll_inactivity
    rw [ua_false m hA]
    split_ifs <;> simp_all
    all_goals (split_ifs <;> simp_all)

/-- Session-invariant step for the toggle hotkey. -/
theorem toggle_session_inv (cfg : Config) (now : Nat)
    (screens : List Screen) (m : Manager) (hne : screens ≠ [])
    (hok : ∀ s ∈ screens, s.createFails = false)
    (ih : m.is_active = true ↔ m.screensaver_windows ≠ []) :
    (toggle_screensaver cfg now screens m).is_active = true ↔
      (toggle_screensaver cfg now screens m).screensaver_windows ≠ [] := by
  unfold toggle_screensaver
  split_ifs with hA
  · have h := deactivate_teardown cfg m hA
    simp [h.1, h.2.1]
  · exact activate_session_inv cfg now screens m hne hok ih

/-- C3 amended: over every reachable state (any interleaving of polls,
toggles, deactivations, input callbacks and timer expiries), provided at
least one display is connected and surface creation never fails, the
overlay session set is non-empty exactly when `is_active` is true. The
`state` field does not track this equivalence (see the counterexample):
manual toggling creates a session while `state` stays `IDLE`, and
deactivation clears the session while `state` may stay `ACTIVE`. -/
theorem session_nonempty_iff_active (cfg : Config) (screens : List Screen)
    (m : Manager) (hne : screens ≠ [])
    (hok : ∀ s ∈ screens, s.createFails = false)
    (hr : Reach cfg screens m) :
    m.is_active = true ↔ m.screensaver_windows ≠ [] := by
  induction hr with
  | init t0 => simp [init_manager]
  | poll now sw sh wins m hm ih =>
      exact poll_session_inv cfg now sw sh wins screens m hne hok ih
  | toggle now m hm ih =>
      exact toggle_session_inv cfg now screens m hne hok ih
  | deact m hm ih => exact deactivate_session_inv cfg m ih
  | input m hm ih => simpa using ih
  | fire now m hm ih => simpa using ih

/-- Witness for C3's amended claim on a reachable state with an active
session (created by the toggle hotkey from the initial state). -/
theorem session_nonempty_iff_active_check :
    (toggle_screensaver cfg_default 5 screens_one
        (init_manager cfg_default 0)).is_active = true ↔
      (toggle_screensaver cfg_default 5 screens_one
        (init_manager cfg_default 0)).screensaver_windows ≠ [] :=
  session_nonempty_iff_active cfg_default screens_one _ (by decide)
    (by decide) (Reach.toggle 5 _ (Reach.init 0))

/-- C3 counterexample: the state reached by one toggle hotkey press from
construction has a non-empty overlay session while the state machine's
`state` field is not `ACTIVE` — the claimed invariant relating the
session set to the `state` field fails on a reachable state. -/
theorem toggle_breaks_state_session_invariant :
    Reach cfg_default screens_one (toggle_screensaver cfg_default 0
      screens_one (init_manager cfg_default 0)) ∧
    (toggle_screensaver cfg_default 0 screens_one
      (init_manager cfg_default 0)).screensaver_windows ≠ [] ∧
    (toggle_screensaver cfg_default 0 screens_one
      (init_manager cfg_default 0)).state ≠ SMState.ACTIVE :=
  ⟨Reach.toggle 0 _ (Reach.init 0), by decide, by decide⟩

end Restmode
